import Mathlib

/-!
Shallow embedding of google/metaserver (Go).

The repository serves cloud instance metadata in two modes:
an EC2-style hierarchical tree (`ec2server`) and a NoCloud-style flat
document plus templated user-data (`noclserver`).  Both resolve the
caller's IP address to a VM record through an external VM registry and
fetch the VM's public keys from an external pubkey store.

External gRPC backends are embedded as oracle functions
(`String → Option VM`, `String → Option (List PublicKey)`), where `none`
models a backend error.  HTTP responses are embedded as an inductive
`Response`: a 200 body, a bare 500 header, a redirect, or a runtime
panic (Go out-of-range slice access).
-/

/-- A VM record as returned by the vmregistry backend
(`vmregistrypb.VM`); only the `Name` field is used by metaserver. -/
structure VM where
  Name : String
deriving DecidableEq, Repr

/-- A public key record as returned by the pubkeystore backend; the
fields used by metaserver are `Algo`, `Pubkey`, `Comment` and `Name`
(the key's label). -/
structure PublicKey where
  Algo : String
  Pubkey : String
  Comment : String
  Name : String
deriving DecidableEq, Repr

/-- Oracle for `vmregClient.Find` on an IP address: `none` is a backend
error (transport failure or no match), `some vm` a successful lookup. -/
def FindOracle : Type := String → Option VM

/-- Oracle for `pubkeystoreClient.GetKeys` on a VM name: `none` is a
backend error, `some keys` the ordered key list (`GetKeysReply.Keys`). -/
def GetKeysOracle : Type := String → Option (List PublicKey)

/-- Outcome of one HTTP handler invocation.
`ok body` is a 200 response with the given body bytes;
`serverError` is `w.WriteHeader(500)` with no body bytes written;
`redirect code loc` is `http.Redirect(w, rq, loc, code)`;
`panicked` is a Go runtime panic inside the handler (no body written). -/
inductive Response where
  | ok (body : String)
  | serverError
  | redirect (code : Nat) (location : String)
  | panicked
deriving DecidableEq, Repr

/-- Body bytes written by a response: only a 200 response carries a
body; a 500, a redirect and a panic write no body bytes. -/
def Response.bodyBytes : Response → String
  | .ok body => body
  | _ => ""

/-- Modelled from the spec: `renderString` (in an `ec2server` file not
present in the sources) writes a single value as plain text; §4.3 says
`hostname` "emits `VM.name` as plain text". -/
def renderString (s : String) : Response := .ok s

/-- Modelled from the spec: `renderList` (in an `ec2server` file not
present in the sources) writes a directory listing; §4.3 says
"Directory-listing responses always separate entries with a newline and
have no trailing marker". -/
def renderList (entries : List String) : Response :=
  .ok (String.intercalate "\n" entries)

/-- Modelled from the spec: `metadataKeys` (in an `ec2server` file not
present in the sources) is the fixed root listing; §4.3 says the root
produces "a newline-separated directory listing of the fixed set
`{hostname, instance-id, public-keys}`". -/
def metadataKeys : List String := ["hostname", "instance-id", "public-keys"]

/-- The openssh key line `fmt.Sprintf("%s %s %s", key.Algo, key.Pubkey,
key.Comment)`, as computed identically in `ec2server.HandlePublicKeyData`
and in the key loops of `noclserver.HandleMetadata` / `HandleUserdata`. -/
def sshKeyLine (key : PublicKey) : String :=
  key.Algo ++ " " ++ key.Pubkey ++ " " ++ key.Comment

/-- Go slice indexing `keys[i]` with an `int` index: a negative index or
an index at or past the length is a runtime panic, embedded as `none`. -/
def goSliceGet (keys : List PublicKey) (i : Int) : Option PublicKey :=
  if 0 ≤ i then keys.get? i.toNat else none

namespace ec2server

/-- `ec2server.Server.HandleMetadata`: the root `/meta-data/` listing;
writes the fixed listing, touching neither backend. -/
def HandleMetadata : Response := renderList metadataKeys

/-- `ec2server.Server.HandleHostname`: resolve the VM by IP, 500 on
backend error, else emit `vm.Name`. -/
def HandleHostname (find : FindOracle) (ip : String) : Response :=
  match find ip with
  | none => .serverError
  | some vm => renderString vm.Name

/-- `ec2server.Server.HandleInstanceID`: resolve the VM by IP, 500 on
backend error, else emit `"i-" + vm.Name`. -/
def HandleInstanceID (find : FindOracle) (ip : String) : Response :=
  match find ip with
  | none => .serverError
  | some vm => renderString ("i-" ++ vm.Name)

/-- `ec2server.Server.HandlePublicKeys`: resolve the VM, fetch its keys
(500 on either backend error), then list `"{i}={k.Name}"` per key. -/
def HandlePublicKeys (find : FindOracle) (getKeys : GetKeysOracle)
    (ip : String) : Response :=
  match find ip with
  | none => .serverError
  | some vm =>
    match getKeys vm.Name with
    | none => .serverError
    | some pkeys =>
      renderList (pkeys.enum.map (fun ik => toString ik.1 ++ "=" ++ ik.2.Name))

/-- `ec2server.Server.HandlePublicKey`: resolve the VM, fetch keys, 500
when `keyIdx >= len(keys)`, else emit the literal `"openssh-key"`. -/
def HandlePublicKey (find : FindOracle) (getKeys : GetKeysOracle)
    (ip : String) (keyIdx : Int) : Response :=
  match find ip with
  | none => .serverError
  | some vm =>
    match getKeys vm.Name with
    | none => .serverError
    | some pkeys =>
      if (pkeys.length : Int) ≤ keyIdx then .serverError
      else renderString "openssh-key"

/-- `ec2server.Server.HandlePublicKeyData`: resolve the VM, fetch keys,
500 when `keyIdx >= len(keys)`, else index `pkeys.Keys[keyIdx]` (a Go
runtime panic when `keyIdx` is negative) and emit the openssh line. -/
def HandlePublicKeyData (find : FindOracle) (getKeys : GetKeysOracle)
    (ip : String) (keyIdx : Int) : Response :=
  match find ip with
  | none => .serverError
  | some vm =>
    match getKeys vm.Name with
    | none => .serverError
    | some pkeys =>
      if (pkeys.length : Int) ≤ keyIdx then .serverError
      else
        match goSliceGet pkeys keyIdx with
        | none => .panicked
        | some key => renderString (sshKeyLine key)

end ec2server

namespace noclserver

/-- The `noclserver.Metadata` document (its Go definition is in a
package file not present in the sources; the field set is visible in
`HandleMetadata` and §3 of the spec); serialized by `yaml.Marshal`. -/
structure Metadata where
  LocalHostname : String
  InstanceID : String
  PublicKeys : List String
deriving DecidableEq, Repr

/-- Oracle for the external `yaml.Marshal` call: `none` is a
serialization error, `some s` the serialized bytes. -/
def MarshalOracle : Type := Metadata → Option String

/-- Oracle for the external `html/template` `Execute` call on the
compiled user-data template: the final contents of `userDataBuffer`
given the binding `{Hostname, PublicKeys}` (the code discards
`Execute`'s error and writes whatever is in the buffer). -/
def RenderOracle : Type := String × List String → String

/-- Modelled from the spec: the yaml struct tags of `Metadata` (in a
package file not present in the sources); §4.4 says the document is a
"map with keys `local-hostname`, `instance-id`, `public-keys`". -/
def yamlMarshal (md : Metadata) : String :=
  "local-hostname: " ++ md.LocalHostname ++ "\n" ++
    "instance-id: " ++ md.InstanceID ++ "\n" ++
    "public-keys:\n" ++
    String.join (md.PublicKeys.map (fun k => "- " ++ k ++ "\n"))

/-- The metadata document built by `noclserver.Server.HandleMetadata`
from the resolved VM and its fetched keys. -/
def buildMetadata (vm : VM) (pkeys : List PublicKey) : Metadata :=
  { LocalHostname := vm.Name
    InstanceID := "i-" ++ vm.Name
    PublicKeys := pkeys.map sshKeyLine }

/-- `noclserver.Server.HandleMetadata`: resolve the VM, fetch keys (500
on either backend error), build the `Metadata` document, serialize it
with `yaml.Marshal` (500 on serialization error) and write the bytes. -/
def HandleMetadata (find : FindOracle) (getKeys : GetKeysOracle)
    (marshal : MarshalOracle) (ip : String) : Response :=
  match find ip with
  | none => .serverError
  | some vm =>
    match getKeys vm.Name with
    | none => .serverError
    | some pkeys =>
      match marshal (buildMetadata vm pkeys) with
      | none => .serverError
      | some jsonData => .ok jsonData

/-- `noclserver.Server.HandleUserdata`: resolve the VM, fetch keys (500
on either backend error), execute the user-data template with
`{Hostname: vm.Name + "." + dnsName, PublicKeys: formatted keys}` and
write the buffer contents (the `Execute` error is discarded). -/
def HandleUserdata (find : FindOracle) (getKeys : GetKeysOracle)
    (render : RenderOracle) (dnsName : String) (ip : String) : Response :=
  match find ip with
  | none => .serverError
  | some vm =>
    match getKeys vm.Name with
    | none => .serverError
    | some pkeys =>
      .ok (render (vm.Name ++ "." ++ dnsName, pkeys.map sshKeyLine))

end noclserver

/-! ### The routers

Both `ec2server.NewRouter` and `noclserver.NewRouter` extract the caller
address as `strings.SplitN(rq.RemoteAddr, ":", 2)[0]` and bind path
segments to the handlers; the EC2 router additionally parses the
`{key}` path variable with `strconv.Atoi`. -/

/-- The split of `strings.SplitN(l, sep, 2)`: the part before the first
occurrence of `sep` (the whole list when `sep` does not occur). -/
def splitFirst (sep : Char) : List Char → List Char
  | [] => []
  | c :: cs => if c = sep then [] else c :: splitFirst sep cs

/-- `strings.SplitN(remoteAddr, ":", 2)[0]`: the remote address with
everything from the first `:` on stripped. -/
def remoteIP (remoteAddr : String) : String :=
  ⟨splitFirst ':' remoteAddr.data⟩

/-- Decimal value of a nonempty all-digit character list, `none`
otherwise (the digits part of Go's `strconv.ParseInt`, base 10). -/
def digitsToNat : List Char → Option Nat
  | [] => none
  | [c] => if c.isDigit then some (c.toNat - '0'.toNat) else none
  | c :: cs =>
    if c.isDigit then
      (digitsToNat cs).map (fun n =>
        (c.toNat - '0'.toNat) * 10 ^ cs.length + n)
    else none

/-- `strconv.Atoi`: an optional `+`/`-` sign, then one or more decimal
digits, the value required to fit a 64-bit `int`; `none` is a parse
error. -/
def atoi (s : String) : Option Int :=
  let signed : Option Int :=
    match s.data with
    | '+' :: rest => (digitsToNat rest).map (fun n => (n : Int))
    | '-' :: rest => (digitsToNat rest).map (fun n => -(n : Int))
    | l => (digitsToNat l).map (fun n => (n : Int))
  signed.bind (fun n =>
    if -(2 ^ 63) ≤ n ∧ n ≤ 2 ^ 63 - 1 then some n else none)

namespace ec2server

/-- The `/2009-04-04/meta-data/` closure in `ec2server.NewRouter`: calls
`HandleMetadata`, using neither the request's remote address nor the
backends. -/
def routeMetadata (find : FindOracle) (getKeys : GetKeysOracle)
    (remoteAddr : String) : Response :=
  HandleMetadata

/-- The `/meta-data/hostname` closure in `ec2server.NewRouter`. -/
def routeHostname (find : FindOracle) (remoteAddr : String) : Response :=
  HandleHostname find (remoteIP remoteAddr)

/-- The `/meta-data/instance-id` closure in `ec2server.NewRouter`. -/
def routeInstanceID (find : FindOracle) (remoteAddr : String) : Response :=
  HandleInstanceID find (remoteIP remoteAddr)

/-- The `/meta-data/public-keys` (no trailing slash) closure in
`ec2server.NewRouter`: an unconditional `http.Redirect` to the
trailing-slash form on the well-known metadata host. -/
def routePublicKeysRedirect (find : FindOracle) (getKeys : GetKeysOracle)
    (remoteAddr : String) : Response :=
  .redirect 301 "http://169.254.169.254/2009-04-04/meta-data/public-keys/"

/-- The `/meta-data/public-keys/` closure in `ec2server.NewRouter`. -/
def routePublicKeys (find : FindOracle) (getKeys : GetKeysOracle)
    (remoteAddr : String) : Response :=
  HandlePublicKeys find getKeys (remoteIP remoteAddr)

/-- The `/meta-data/public-keys/{key}/` closure in
`ec2server.NewRouter`: `strconv.Atoi` on the `{key}` path variable, 500
on a parse error, else `HandlePublicKey`. -/
def routePublicKey (find : FindOracle) (getKeys : GetKeysOracle)
    (remoteAddr : String) (keyVar : String) : Response :=
  match atoi keyVar with
  | none => .serverError
  | some keyIdx => HandlePublicKey find getKeys (remoteIP remoteAddr) keyIdx

/-- The `/meta-data/public-keys/{key}/openssh-key` closure in
`ec2server.NewRouter`: `strconv.Atoi` on the `{key}` path variable, 500
on a parse error, else `HandlePublicKeyData`. -/
def routePublicKeyData (find : FindOracle) (getKeys : GetKeysOracle)
    (remoteAddr : String) (keyVar : String) : Response :=
  match atoi keyVar with
  | none => .serverError
  | some keyIdx => HandlePublicKeyData find getKeys (remoteIP remoteAddr) keyIdx

end ec2server

namespace noclserver

/-- The `/meta-data` closure in `noclserver.NewRouter`. -/
def routeMetadata (find : FindOracle) (getKeys : GetKeysOracle)
    (marshal : MarshalOracle) (remoteAddr : String) : Response :=
  HandleMetadata find getKeys marshal (remoteIP remoteAddr)

/-- The `/user-data` closure in `noclserver.NewRouter`. -/
def routeUserdata (find : FindOracle) (getKeys : GetKeysOracle)
    (render : RenderOracle) (dnsName : String) (remoteAddr : String) :
    Response :=
  HandleUserdata find getKeys render dnsName (remoteIP remoteAddr)

end noclserver

/-! ### Helper lemmas -/

theorem splitFirst_append_cons (sep : Char) (l₁ l₂ : List Char)
    (h : sep ∉ l₁) : splitFirst sep (l₁ ++ sep :: l₂) = l₁ := by
  induction l₁ with
  | nil => simp [splitFirst]
  | cons c cs ih =>
    have hc : ¬c = sep := fun hcs => h (hcs ▸ List.mem_cons_self c cs)
    simp only [List.cons_append, splitFirst, if_neg hc]
    exact congrArg (c :: ·) (ih (fun hm => h (List.mem_cons_of_mem c hm)))

theorem remoteIP_strips_port (p rest : String) (hp : ':' ∉ p.data) :
    remoteIP (p ++ ":" ++ rest) = p := by
  have hdata : (p ++ ":" ++ rest).data = p.data ++ ':' :: rest.data := by
    simp [String.data_append]
  show (⟨splitFirst ':' (p ++ ":" ++ rest).data⟩ : String) = p
  rw [hdata, splitFirst_append_cons ':' p.data rest.data hp]

/-! ### Claims -/

/-- C1: the claim that both keyed endpoints reject every index that is
not a non-negative integer below the key count is FALSE for negative
indices: `strconv.Atoi` accepts `-1` and the handlers' only bound check
is `keyIdx >= len(keys)`, so the key-directory endpoint at index `-1`
answers 200 `openssh-key` instead of a server error. -/
theorem C1_negative_index_counterexample :
    ec2server.routePublicKey (fun _ => some ⟨"vm-42"⟩)
        (fun _ => some [⟨"ssh-rsa", "AAAA", "host1", "k0"⟩])
        "10.0.0.5:80" "-1" = Response.ok "openssh-key" ∧
      Response.ok "openssh-key" ≠ Response.serverError := by
  exact ⟨by decide, by decide⟩

/-- C1 (amended): for every request to the two keyed EC2 endpoints whose
index path variable is non-numeric, or parses (sign included) to a value
at or above the number of keys returned by the backend, both endpoints
return a server error (500) and write no body bytes. -/
theorem C1_index_validation (find : FindOracle) (getKeys : GetKeysOracle)
    (remoteAddr keyVar : String) (vm : VM) (pkeys : List PublicKey)
    (hfind : find (remoteIP remoteAddr) = some vm)
    (hkeys : getKeys vm.Name = some pkeys)
    (hbad : atoi keyVar = none ∨
      ∃ i, atoi keyVar = some i ∧ (pkeys.length : Int) ≤ i) :
    ec2server.routePublicKey find getKeys remoteAddr keyVar =
        Response.serverError ∧
      ec2server.routePublicKeyData find getKeys remoteAddr keyVar =
        Response.serverError ∧
      Response.serverError.bodyBytes = "" := by
  rcases hbad with h | ⟨i, hi, hle⟩
  · refine ⟨?_, ?_, rfl⟩ <;>
      simp [ec2server.routePublicKey, ec2server.routePublicKeyData, h]
  · refine ⟨?_, ?_, rfl⟩ <;>
      simp [ec2server.routePublicKey, ec2server.routePublicKeyData, hi,
        ec2server.HandlePublicKey, ec2server.HandlePublicKeyData,
        hfind, hkeys, hle]

/-- C1 witness: a non-numeric index is rejected by both endpoints. -/
theorem C1_index_validation_witness :
    ec2server.routePublicKey (fun _ => some ⟨"vm-42"⟩) (fun _ => some [])
        "10.0.0.5:80" "zzz" = Response.serverError ∧
      ec2server.routePublicKeyData (fun _ => some ⟨"vm-42"⟩)
        (fun _ => some []) "10.0.0.5:80" "zzz" = Response.serverError ∧
      Response.serverError.bodyBytes = "" :=
  C1_index_validation _ _ _ _ ⟨"vm-42"⟩ [] rfl rfl (Or.inl (by decide))

/-- C2: for every resolved VM, the EC2 instance-id endpoint emits
exactly `"i-" + VM.name` and the NoCloud metadata document's instance id
field is exactly `"i-" + VM.name`: the two renderers derive the instance
id by the same function of the VM name. -/
theorem C2_instance_id_agreement (find : FindOracle) (ip : String)
    (vm : VM) (pkeys : List PublicKey) (hfind : find ip = some vm) :
    ec2server.HandleInstanceID find ip = Response.ok ("i-" ++ vm.Name) ∧
      (noclserver.buildMetadata vm pkeys).InstanceID = "i-" ++ vm.Name := by
  refine ⟨?_, rfl⟩
  simp [ec2server.HandleInstanceID, hfind, renderString]

/-- C2 witness at a concrete VM. -/
theorem C2_instance_id_agreement_witness :
    ec2server.HandleInstanceID (fun _ => some ⟨"vm-42"⟩) "10.0.0.5" =
        Response.ok ("i-" ++ "vm-42") ∧
      (noclserver.buildMetadata ⟨"vm-42"⟩ []).InstanceID = "i-" ++ "vm-42" :=
  C2_instance_id_agreement _ _ ⟨"vm-42"⟩ [] rfl

/-- C3: for every caller resolving to a VM whose backend returns `n`
keys, the `public-keys/` listing body is the newline join (no trailing
marker) of exactly `n` entries, entry `i` being `"i=label_i"` with
`label_i` the `Name` field of the `i`-th key in backend order. -/
theorem C3_public_keys_listing (find : FindOracle)
    (getKeys : GetKeysOracle) (ip : String) (vm : VM)
    (pkeys : List PublicKey) (hfind : find ip = some vm)
    (hkeys : getKeys vm.Name = some pkeys) :
    ∃ entries : List String,
      ec2server.HandlePublicKeys find getKeys ip =
          Response.ok (String.intercalate "\n" entries) ∧
        entries.length = pkeys.length ∧
        ∀ i k, pkeys.get? i = some k →
          entries.get? i = some (toString i ++ "=" ++ k.Name) := by
  refine ⟨pkeys.enum.map (fun ik => toString ik.1 ++ "=" ++ ik.2.Name),
    ?_, ?_, ?_⟩
  · simp [ec2server.HandlePublicKeys, hfind, hkeys, renderList]
  · simp
  · intro i k hk
    rw [List.get?_eq_getElem?] at hk
    simp [List.getElem?_map, List.getElem?_enum, hk]

/-- C3 witness at a concrete two-key backend. -/
theorem C3_public_keys_listing_witness :
    ∃ entries : List String,
      ec2server.HandlePublicKeys (fun _ => some ⟨"vm-42"⟩)
          (fun _ => some [⟨"ssh-rsa", "AAAA", "host1", "k0"⟩,
            ⟨"ssh-ed25519", "BBBB", "host2", "k1"⟩]) "10.0.0.5" =
          Response.ok (String.intercalate "\n" entries) ∧
        entries.length = 2 ∧
        ∀ i k,
          ([⟨"ssh-rsa", "AAAA", "host1", "k0"⟩,
            ⟨"ssh-ed25519", "BBBB", "host2", "k1"⟩] :
              List PublicKey).get? i = some k →
          entries.get? i = some (toString i ++ "=" ++ k.Name) :=
  C3_public_keys_listing _ _ _ ⟨"vm-42"⟩
    [⟨"ssh-rsa", "AAAA", "host1", "k0"⟩,
      ⟨"ssh-ed25519", "BBBB", "host2", "k1"⟩] rfl rfl

/-- C4: for every key at an in-range backend index `k`, the EC2
`openssh-key` endpoint body and the `k`-th entry of the NoCloud
metadata document's public-keys list are both exactly
`"algo material comment"` (fields joined by single spaces), hence
byte-identical to each other. -/
theorem C4_openssh_key_roundtrip (find : FindOracle)
    (getKeys : GetKeysOracle) (ip : String) (vm : VM)
    (pkeys : List PublicKey) (k : Nat) (key : PublicKey)
    (hfind : find ip = some vm) (hkeys : getKeys vm.Name = some pkeys)
    (hk : pkeys.get? k = some key) :
    ec2server.HandlePublicKeyData find getKeys ip (k : Int) =
        Response.ok (key.Algo ++ " " ++ key.Pubkey ++ " " ++ key.Comment) ∧
      (noclserver.buildMetadata vm pkeys).PublicKeys.get? k =
        some (key.Algo ++ " " ++ key.Pubkey ++ " " ++ key.Comment) := by
  have hlt : k < pkeys.length := by
    rcases List.get?_eq_some.mp hk with ⟨h, -⟩
    exact h
  have hnle : ¬((pkeys.length : Int) ≤ (k : Int)) := by
    rw [not_le]
    exact_mod_cast hlt
  have hk' : pkeys[k]? = some key := List.get?_eq_getElem? pkeys k ▸ hk
  constructor
  · simp [ec2server.HandlePublicKeyData, hfind, hkeys, hnle, goSliceGet,
      hk', renderString, sshKeyLine]
  · simp [noclserver.buildMetadata, List.getElem?_map, hk', sshKeyLine]

/-- C4 witness at index 0 of a one-key backend. -/
theorem C4_openssh_key_roundtrip_witness :
    ec2server.HandlePublicKeyData (fun _ => some ⟨"vm-42"⟩)
        (fun _ => some [⟨"ssh-rsa", "AAAA", "host1", "k0"⟩]) "10.0.0.5"
        ((0 : Nat) : Int) =
        Response.ok ("ssh-rsa" ++ " " ++ "AAAA" ++ " " ++ "host1") ∧
      (noclserver.buildMetadata ⟨"vm-42"⟩
          [⟨"ssh-rsa", "AAAA", "host1", "k0"⟩]).PublicKeys.get? 0 =
        some ("ssh-rsa" ++ " " ++ "AAAA" ++ " " ++ "host1") :=
  C4_openssh_key_roundtrip _ _ _ ⟨"vm-42"⟩ _ 0
    ⟨"ssh-rsa", "AAAA", "host1", "k0"⟩ rfl rfl rfl

/-- C5: the `public-keys` (no trailing slash) route is an HTTP 301
redirect to the trailing-slash form at the fixed well-known metadata
host, and its response is independent of the backends and of the
caller: it never resolves the VM and never calls the key backend. -/
theorem C5_public_keys_redirect :
    ∀ (find find' : FindOracle) (getKeys getKeys' : GetKeysOracle)
      (remoteAddr remoteAddr' : String),
      ec2server.routePublicKeysRedirect find getKeys remoteAddr =
          Response.redirect 301
            "http://169.254.169.254/2009-04-04/meta-data/public-keys/" ∧
        ec2server.routePublicKeysRedirect find getKeys remoteAddr =
          ec2server.routePublicKeysRedirect find' getKeys' remoteAddr' :=
  fun _ _ _ _ _ _ => ⟨rfl, rfl⟩

/-- C6: in both renderers, a VM-lookup backend error makes every
resolving handler answer a bare 500, and a key-fetch backend error
makes every key-fetching handler answer a bare 500; a 500 response
carries no body bytes, so a body is either fully correct or empty. -/
theorem C6_backend_error_propagation (find : FindOracle)
    (getKeys : GetKeysOracle) (marshal : noclserver.MarshalOracle)
    (render : noclserver.RenderOracle) (dnsName ip : String) :
    (find ip = none →
      ec2server.HandleHostname find ip = Response.serverError ∧
        ec2server.HandleInstanceID find ip = Response.serverError ∧
        ec2server.HandlePublicKeys find getKeys ip = Response.serverError ∧
        (∀ keyIdx : Int,
          ec2server.HandlePublicKey find getKeys ip keyIdx =
            Response.serverError) ∧
        (∀ keyIdx : Int,
          ec2server.HandlePublicKeyData find getKeys ip keyIdx =
            Response.serverError) ∧
        noclserver.HandleMetadata find getKeys marshal ip =
          Response.serverError ∧
        noclserver.HandleUserdata find getKeys render dnsName ip =
          Response.serverError) ∧
      (∀ vm, find ip = some vm → getKeys vm.Name = none →
        ec2server.HandlePublicKeys find getKeys ip = Response.serverError ∧
          (∀ keyIdx : Int,
            ec2server.HandlePublicKey find getKeys ip keyIdx =
              Response.serverError) ∧
          (∀ keyIdx : Int,
            ec2server.HandlePublicKeyData find getKeys ip keyIdx =
              Response.serverError) ∧
          noclserver.HandleMetadata find getKeys marshal ip =
            Response.serverError ∧
          noclserver.HandleUserdata find getKeys render dnsName ip =
            Response.serverError) ∧
      Response.serverError.bodyBytes = "" := by
  refine ⟨fun h => ?_, fun vm h hk => ?_, rfl⟩
  · refine ⟨?_, ?_, ?_, fun i => ?_, fun i => ?_, ?_, ?_⟩ <;>
      simp [ec2server.HandleHostname, ec2server.HandleInstanceID,
        ec2server.HandlePublicKeys, ec2server.HandlePublicKey,
        ec2server.HandlePublicKeyData, noclserver.HandleMetadata,
        noclserver.HandleUserdata, h]
  · refine ⟨?_, fun i => ?_, fun i => ?_, ?_, ?_⟩ <;>
      simp [ec2server.HandlePublicKeys, ec2server.HandlePublicKey,
        ec2server.HandlePublicKeyData, noclserver.HandleMetadata,
        noclserver.HandleUserdata, h, hk]

/-- C6 witness: a failing VM lookup yields a bare 500 for the EC2
hostname handler and the NoCloud metadata handler. -/
theorem C6_backend_error_propagation_witness :
    ec2server.HandleHostname (fun _ => none) "192.168.1.1" =
        Response.serverError ∧
      noclserver.HandleMetadata (fun _ => none) (fun _ => none)
        (fun _ => none) "192.168.1.1" = Response.serverError := by
  have h := C6_backend_error_propagation (fun _ => none) (fun _ => none)
    (fun _ => none) (fun _ => "") "" "192.168.1.1"
  exact ⟨(h.1 rfl).1, (h.1 rfl).2.2.2.2.2.1⟩

/-- C7: for every resolved VM, the NoCloud metadata handler builds a
document whose fields are exactly `local-hostname` (the VM name),
`instance-id` (`"i-" + name`) and `public-keys` (one
`"algo material comment"` string per key, the same join as the EC2
openssh-key line); the serialized bytes are the response body, and a
serialization failure yields a bare 500. -/
theorem C7_metadata_document (find : FindOracle) (getKeys : GetKeysOracle)
    (marshal : noclserver.MarshalOracle) (ip : String) (vm : VM)
    (pkeys : List PublicKey) (hfind : find ip = some vm)
    (hkeys : getKeys vm.Name = some pkeys) :
    (noclserver.buildMetadata vm pkeys).LocalHostname = vm.Name ∧
      (noclserver.buildMetadata vm pkeys).InstanceID = "i-" ++ vm.Name ∧
      (noclserver.buildMetadata vm pkeys).PublicKeys =
        pkeys.map (fun key =>
          key.Algo ++ " " ++ key.Pubkey ++ " " ++ key.Comment) ∧
      noclserver.yamlMarshal (noclserver.buildMetadata vm pkeys) =
        "local-hostname: " ++ vm.Name ++ "\n" ++ "instance-id: " ++
          ("i-" ++ vm.Name) ++ "\n" ++ "public-keys:\n" ++
          String.join ((pkeys.map sshKeyLine).map
            (fun s => "- " ++ s ++ "\n")) ∧
      (marshal (noclserver.buildMetadata vm pkeys) = none →
        noclserver.HandleMetadata find getKeys marshal ip =
          Response.serverError) ∧
      ∀ s, marshal (noclserver.buildMetadata vm pkeys) = some s →
        noclserver.HandleMetadata find getKeys marshal ip =
          Response.ok s := by
  refine ⟨rfl, rfl, rfl, rfl, fun hm => ?_, fun s hm => ?_⟩ <;>
    simp [noclserver.HandleMetadata, hfind, hkeys, hm]

/-- C7 witness with the spec-modelled yaml serializer on one key. -/
theorem C7_metadata_document_witness :
    noclserver.HandleMetadata (fun _ => some ⟨"vm-42"⟩)
        (fun _ => some [⟨"ssh-rsa", "AAAA", "host1", "k0"⟩])
        (fun md => some (noclserver.yamlMarshal md)) "10.0.0.5" =
      Response.ok (noclserver.yamlMarshal
        (noclserver.buildMetadata ⟨"vm-42"⟩
          [⟨"ssh-rsa", "AAAA", "host1", "k0"⟩])) :=
  (C7_metadata_document _ _ _ _ ⟨"vm-42"⟩
    [⟨"ssh-rsa", "AAAA", "host1", "k0"⟩] rfl rfl).2.2.2.2.2 _ rfl

/-- C8: for every resolved VM, the NoCloud user-data handler executes
the template on the binding whose `Hostname` is exactly
`VM.name + "." + configured DNS suffix` and whose `PublicKeys` are the
`"algo material comment"` key strings, and writes the buffer contents
verbatim as a 200 body. -/
theorem C8_userdata_render (find : FindOracle) (getKeys : GetKeysOracle)
    (render : noclserver.RenderOracle) (dnsName ip : String) (vm : VM)
    (pkeys : List PublicKey) (hfind : find ip = some vm)
    (hkeys : getKeys vm.Name = some pkeys) :
    noclserver.HandleUserdata find getKeys render dnsName ip =
      Response.ok
        (render (vm.Name ++ "." ++ dnsName, pkeys.map sshKeyLine)) := by
  simp [noclserver.HandleUserdata, hfind, hkeys]

/-- C8 witness with a template that prints the hostname binding. -/
theorem C8_userdata_render_witness :
    noclserver.HandleUserdata (fun _ => some ⟨"vm-42"⟩) (fun _ => some [])
        (fun ctx => ctx.1) "example.com" "10.0.0.5" =
      Response.ok ("vm-42" ++ "." ++ "example.com") :=
  C8_userdata_render _ _ _ _ _ ⟨"vm-42"⟩ [] rfl rfl

/-- C9: in both serving modes, every routed closure passes to the
handlers (and so to the VM resolver) the request's remote address with
everything from the first `:` on stripped: on an address
`p ++ ":" ++ rest` with `p` colon-free, the extracted caller address is
exactly `p`. -/
theorem C9_remote_address_port_strip (p rest : String)
    (hp : ':' ∉ p.data) :
    remoteIP (p ++ ":" ++ rest) = p ∧
      ∀ (find : FindOracle) (getKeys : GetKeysOracle)
        (marshal : noclserver.MarshalOracle)
        (render : noclserver.RenderOracle) (dnsName keyVar : String),
        ec2server.routeHostname find (p ++ ":" ++ rest) =
            ec2server.HandleHostname find p ∧
          ec2server.routeInstanceID find (p ++ ":" ++ rest) =
            ec2server.HandleInstanceID find p ∧
          ec2server.routePublicKeys find getKeys (p ++ ":" ++ rest) =
            ec2server.HandlePublicKeys find getKeys p ∧
          (∀ i, atoi keyVar = some i →
            ec2server.routePublicKey find getKeys (p ++ ":" ++ rest)
                keyVar =
              ec2server.HandlePublicKey find getKeys p i ∧
            ec2server.routePublicKeyData find getKeys (p ++ ":" ++ rest)
                keyVar =
              ec2server.HandlePublicKeyData find getKeys p i) ∧
          noclserver.routeMetadata find getKeys marshal
              (p ++ ":" ++ rest) =
            noclserver.HandleMetadata find getKeys marshal p ∧
          noclserver.routeUserdata find getKeys render dnsName
              (p ++ ":" ++ rest) =
            noclserver.HandleUserdata find getKeys render dnsName p := by
  have hip := remoteIP_strips_port p rest hp
  refine ⟨hip, fun find getKeys marshal render dnsName keyVar =>
    ⟨?_, ?_, ?_, fun i hi => ⟨?_, ?_⟩, ?_, ?_⟩⟩
  · simp [ec2server.routeHostname, hip]
  · simp [ec2server.routeInstanceID, hip]
  · simp [ec2server.routePublicKeys, hip]
  · simp [ec2server.routePublicKey, hip, hi]
  · simp [ec2server.routePublicKeyData, hip, hi]
  · simp [noclserver.routeMetadata, hip]
  · simp [noclserver.routeUserdata, hip]

/-- C9 witness on a concrete address and port. -/
theorem C9_remote_address_port_strip_witness :
    remoteIP ("10.0.0.5" ++ ":" ++ "4711") = "10.0.0.5" :=
  (C9_remote_address_port_strip "10.0.0.5" "4711" (by decide)).1

/-- C10: the EC2 root `meta-data/` route ignores the caller address and
both backends: any two requests, whatever the oracles and addresses,
get the identical 200 response with the fixed directory listing. -/
theorem C10_root_listing_constant :
    ∀ (find find' : FindOracle) (getKeys getKeys' : GetKeysOracle)
      (remoteAddr remoteAddr' : String),
      ec2server.routeMetadata find getKeys remoteAddr =
          ec2server.routeMetadata find' getKeys' remoteAddr' ∧
        ec2server.routeMetadata find getKeys remoteAddr =
          Response.ok "hostname\ninstance-id\npublic-keys" := by
  intro find find' getKeys getKeys' remoteAddr remoteAddr'
  refine ⟨rfl, ?_⟩
  show renderList metadataKeys = Response.ok "hostname\ninstance-id\npublic-keys"
  decide
